import Mathlib

/-!
Verification development for the music-service backend (Flask + SQLAlchemy).

The lifecycle core is shallowly embedded:
* `Json` models Python JSON-like values (the environment's `None` is `Json.null`);
  `truthy` models Python truthiness, `jget` models `dict.get(key)` on objects,
  `pyOr` models Python's value-returning `or`.
* `Song` models the `Song` SQLAlchemy row (`models/song.py`); the persisted
  store is a `List Song`.  Timestamps are omitted (no claim mentions them) and
  the free-text metadata columns are modelled at `String` type.
* `generate_music`, `check_status` (from `utils/music_generator.py`) and
  `check_status_route`, `receive_song`, the `create_song` parameter handling
  (from `utils/routes.py`) are embedded as pure functions.  External effects
  (the provider's HTTP response, the Cloudinary upload result, network and
  commit success) are passed in as explicit parameters.  A Python exception
  escaping a handler is modelled with `Except`.
* `Op`/`applyOp`/`Reachable` give the state-transition view of the store used
  by the invariant claims.
-/

/-- JSON-like values exchanged with the provider and stored in requests.
`null` also stands for Python `None`. -/
inductive Json where
  | null : Json
  | bool : Bool → Json
  | num : Int → Json
  | str : String → Json
  | arr : List Json → Json
  | obj : List (String × Json) → Json
deriving Repr

mutual

/-- Structural (value) equality on `Json`, mirroring Python `==` on parsed
JSON values. -/
def Json.beq : Json → Json → Bool
  | .null, .null => true
  | .bool a, .bool b => a == b
  | .num a, .num b => a == b
  | .str a, .str b => a == b
  | .arr xs, .arr ys => Json.beqList xs ys
  | .obj xs, .obj ys => Json.beqFields xs ys
  | _, _ => false

/-- Pointwise equality of JSON arrays. -/
def Json.beqList : List Json → List Json → Bool
  | [], [] => true
  | x :: xs, y :: ys => Json.beq x y && Json.beqList xs ys
  | _, _ => false

/-- Pointwise equality of JSON object field lists. -/
def Json.beqFields : List (String × Json) → List (String × Json) → Bool
  | [], [] => true
  | (k1, v1) :: xs, (k2, v2) :: ys => k1 == k2 && Json.beq v1 v2 && Json.beqFields xs ys
  | _, _ => false

end

mutual

theorem Json.beq_refl : ∀ (a : Json), Json.beq a a = true
  | .null => rfl
  | .bool b => by simp [Json.beq]
  | .num n => by simp [Json.beq]
  | .str s => by simp [Json.beq]
  | .arr xs => by simpa [Json.beq] using Json.beqList_refl xs
  | .obj xs => by simpa [Json.beq] using Json.beqFields_refl xs

theorem Json.beqList_refl : ∀ (xs : List Json), Json.beqList xs xs = true
  | [] => rfl
  | x :: xs => by simp [Json.beqList, Json.beq_refl x, Json.beqList_refl xs]

theorem Json.beqFields_refl : ∀ (xs : List (String × Json)), Json.beqFields xs xs = true
  | [] => rfl
  | (k, v) :: xs => by simp [Json.beqFields, Json.beq_refl v, Json.beqFields_refl xs]

end

mutual

theorem Json.eq_of_beq : ∀ (a b : Json), Json.beq a b = true → a = b
  | .null, .null, _ => rfl
  | .bool x, .bool y, h => by
      have hx : x = y := by simpa [Json.beq] using h
      rw [hx]
  | .num x, .num y, h => by
      have hx : x = y := by simpa [Json.beq] using h
      rw [hx]
  | .str x, .str y, h => by
      have hx : x = y := by simpa [Json.beq] using h
      rw [hx]
  | .arr xs, .arr ys, h => by
      have hl : Json.beqList xs ys = true := by simpa [Json.beq] using h
      rw [Json.eqList_of_beq xs ys hl]
  | .obj xs, .obj ys, h => by
      have hf : Json.beqFields xs ys = true := by simpa [Json.beq] using h
      rw [Json.eqFields_of_beq xs ys hf]
  | .null, .bool _, h | .null, .num _, h | .null, .str _, h | .null, .arr _, h
  | .null, .obj _, h
  | .bool _, .null, h | .bool _, .num _, h | .bool _, .str _, h | .bool _, .arr _, h
  | .bool _, .obj _, h
  | .num _, .null, h | .num _, .bool _, h | .num _, .str _, h | .num _, .arr _, h
  | .num _, .obj _, h
  | .str _, .null, h | .str _, .bool _, h | .str _, .num _, h | .str _, .arr _, h
  | .str _, .obj _, h
  | .arr _, .null, h | .arr _, .bool _, h | .arr _, .num _, h | .arr _, .str _, h
  | .arr _, .obj _, h
  | .obj _, .null, h | .obj _, .bool _, h | .obj _, .num _, h | .obj _, .str _, h
  | .obj _, .arr _, h => by simp [Json.beq] at h

theorem Json.eqList_of_beq : ∀ (xs ys : List Json), Json.beqList xs ys = true → xs = ys
  | [], [], _ => rfl
  | x :: xs, y :: ys, h => by
      have hp : Json.beq x y = true ∧ Json.beqList xs ys = true := by
        simpa [Json.beqList, Bool.and_eq_true] using h
      rw [Json.eq_of_beq x y hp.1, Json.eqList_of_beq xs ys hp.2]
  | [], _ :: _, h => by simp [Json.beqList] at h
  | _ :: _, [], h => by simp [Json.beqList] at h

theorem Json.eqFields_of_beq :
    ∀ (xs ys : List (String × Json)), Json.beqFields xs ys = true → xs = ys
  | [], [], _ => rfl
  | (k1, v1) :: xs, (k2, v2) :: ys, h => by
      have hp : (k1 == k2) = true ∧ Json.beq v1 v2 = true ∧ Json.beqFields xs ys = true := by
        simpa [Json.beqFields, Bool.and_eq_true, and_assoc] using h
      have hk : k1 = k2 := by simpa using hp.1
      rw [hk, Json.eq_of_beq v1 v2 hp.2.1, Json.eqFields_of_beq xs ys hp.2.2]
  | [], _ :: _, h => by simp [Json.beqFields] at h
  | _ :: _, [], h => by simp [Json.beqFields] at h

end

instance : BEq Json := ⟨Json.beq⟩

instance : LawfulBEq Json where
  eq_of_beq h := Json.eq_of_beq _ _ h
  rfl := Json.beq_refl _

instance : DecidableEq Json := fun a b =>
  decidable_of_iff (Json.beq a b = true) ⟨Json.eq_of_beq a b, fun h => h ▸ Json.beq_refl a⟩

/-- Python truthiness of a JSON value (`if v:`): `None`, `False`, `0`, `""`,
`[]` and `{}` are falsy. -/
def truthy : Json → Bool
  | .null => false
  | .bool b => b
  | .num n => n != 0
  | .str s => s != ""
  | .arr xs => !xs.isEmpty
  | .obj fs => !fs.isEmpty

/-- Python's value-returning `a or b`. -/
def pyOr (a b : Json) : Json := if truthy a then a else b

/-- Python's `a or b` on strings (used for the `title or "Untitled"` defaults,
where the absent argument is modelled as `""`). -/
def pyStrOr (a b : String) : String := if a = "" then b else a

/-- Python's `str.lower()` (character-wise; the strings compared in the
source are ASCII). -/
def pyLower (s : String) : String := .mk (s.data.map Char.toLower)

/-- Python's `str.strip()`: whitespace removed from both ends. -/
def pyStrip (s : String) : String :=
  .mk (((s.data.dropWhile Char.isWhitespace).reverse.dropWhile Char.isWhitespace).reverse)

/-- Python's `str.rstrip("/")`. -/
def pyRstripSlash (s : String) : String :=
  .mk ((s.data.reverse.dropWhile (· = '/')).reverse)

/-- `d.get(key)` on a JSON object: the value if the key is present, else
`null` (Python `None`).  Only applied where the source has established the
value is a dict. -/
def jget (j : Json) (k : String) : Json :=
  match j with
  | .obj fields => (fields.lookup k).getD .null
  | _ => .null

/-- `d.get(key, default)` on a JSON object. -/
def jgetD (j : Json) (k : String) (d : Json) : Json :=
  match j with
  | .obj fields => (fields.lookup k).getD d
  | _ => d

/-- Truthiness of an optional string column (`if song.cloudinary_url:`):
SQL `NULL` and `""` are both falsy. -/
def optTruthy : Option String → Bool
  | none => false
  | some s => s != ""

/-- `models/song.py`: the `SongStatus` enum. -/
inductive SongStatus where
  | pending : SongStatus
  | processing : SongStatus
  | completed : SongStatus
  | failed : SongStatus
deriving Repr, DecidableEq

/-- `status.value` of the enum. -/
def SongStatus.value : SongStatus → String
  | .pending => "pending"
  | .processing => "processing"
  | .completed => "completed"
  | .failed => "failed"

/-- One `song` row (`models/song.py`).  `task_id` keeps the JSON value the
code stores; `suno_url` likewise (the callback assigns a request-JSON value
to it).  `cloudinary_url`/`audio_url` are only ever assigned Python strings
(or left `NULL`), hence `Option String`.  The surrogate `id` and the
timestamps are omitted: no claim mentions them. -/
structure Song where
  task_id : Json
  title : String
  lyrics : String
  style : String
  mood : String
  theme : String
  artist_name : String
  suno_url : Json
  cloudinary_url : Option String
  audio_url : Option String
  status : SongStatus
  retry_count : Nat
  error_message : Option String
  duration : Option Int
deriving Repr, DecidableEq

/-- The row built by `Song(task_id=..., title=..., lyrics=..., style=...,
mood=..., theme=..., status=SongStatus.processing)` as both creation sites
call it: constructor defaults give `suno_url=None`, `cloudinary_url=None`,
`artist_name=""`, `duration=None`; the `audio_url`, `retry_count` and
`error_message` columns take their schema defaults (`NULL`, `0`, `NULL`). -/
def mkSong (tid : Json) (title lyrics style mood theme : String) : Song :=
  { task_id := tid
    title := title
    lyrics := lyrics
    style := style
    mood := mood
    theme := theme
    artist_name := ""
    suno_url := .null
    cloudinary_url := none
    audio_url := none
    status := .processing
    retry_count := 0
    error_message := none
    duration := none }

/-- `Song.query.filter_by(task_id=tid).first()`. -/
def findSong (db : List Song) (tid : Json) : Option Song :=
  db.find? (fun s => Json.beq s.task_id tid)

/-- Number of persisted rows whose `task_id` equals `tid`. -/
def countTask (db : List Song) (tid : Json) : Nat :=
  (db.filter (fun s => Json.beq s.task_id tid)).length

/-- The persistence step of `generate_music` (`utils/music_generator.py`
lines 178-192): query by `task_id`; only when no row exists, add a new
`Song` with `status=processing` and commit. -/
def insertIfAbsent (db : List Song) (tid : Json) (title lyrics style mood theme : String) :
    List Song :=
  if (findSong db tid).isSome then db
  else db ++ [mkSong tid title lyrics style mood theme]

/-- Commit of a field update on the first row matching `tid` (the ORM object
returned by `filter_by(...).first()` is mutated and the session committed). -/
def updateFirst (db : List Song) (tid : Json) (f : Song → Song) : List Song :=
  match db with
  | [] => []
  | s :: rest =>
    if Json.beq s.task_id tid then f s :: rest
    else s :: updateFirst rest tid f

/-- The field assignments both reconciliation paths perform before their
commit (`routes.py` lines 101-104 and 167-170): keep the provider link in
`suno_url`, store the upload result in `cloudinary_url` and its alias
`audio_url`, and flip `status` to `completed`. -/
def completeSong (sunoUrl : Json) (u : String) (s : Song) : Song :=
  { s with
    status := .completed
    suno_url := sunoUrl
    cloudinary_url := some u
    audio_url := some u }

/-- The ordered key tuple `("id", "task_id", "taskId", "taskID")` probed by
`extract_task_id` (`utils/helpers.py`). -/
def idKeys : List String := ["id", "task_id", "taskId", "taskID"]

/-- One probing pass `for key in keys: if item.get(key): return item[key]`
over a dict's fields (`key in item and item.get(key)` is equivalent, since an
absent key yields the falsy `None`). -/
def firstTruthyKey (fields : List (String × Json)) : List String → Option Json
  | [] => none
  | k :: ks =>
    let v := (fields.lookup k).getD .null
    if truthy v then some v else firstTruthyKey fields ks

/-- The probe over the elements of a `data` list: non-dict candidates are
skipped, and within each dict the keys are probed in order. -/
def probeListItems : List Json → Option Json
  | [] => none
  | .obj f :: rest =>
    match firstTruthyKey f idKeys with
    | some v => some v
    | none => probeListItems rest
  | _ :: rest => probeListItems rest

/-- The probe of a nested `metadata` dict. -/
def metaProbe (fields : List (String × Json)) : Option Json :=
  match (fields.lookup "metadata").getD .null with
  | .obj mf => firstTruthyKey mf idKeys
  | _ => none

/-- `extract_task_id` (`utils/helpers.py` lines 38-74): returns `None` for a
falsy or non-dict argument, then probes top-level keys, a nested `data` dict,
the dicts of a nested `data` list, and a nested `metadata` dict, in order,
returning the first truthy value found. -/
def extract_task_id (item : Json) : Option Json :=
  match item with
  | .obj fields =>
    if fields.isEmpty then none
    else
      match firstTruthyKey fields idKeys with
      | some v => some v
      | none =>
        match (fields.lookup "data").getD .null with
        | .obj df =>
          match firstTruthyKey df idKeys with
          | some v => some v
          | none => metaProbe fields
        | .arr items =>
          match probeListItems items with
          | some v => some v
          | none => metaProbe fields
        | _ => metaProbe fields
  | _ => none

/-- Parameters of a `generate_music` call.  `title`, `mood`, `theme` and
`callback_url` default to `None` in the source; the model writes the absent
argument as `""`, which the source treats identically (`title or "Untitled"`
etc. test truthiness).  `appBase` is `APP_BASE_URL` from the configuration. -/
structure GenParams where
  lyrics : String
  style : String
  title : String
  mood : String
  theme : String
  callbackUrl : String
  appBase : String
  customMode : Bool
  instrumental : Bool
deriving Repr, DecidableEq

/-- `callback_url` resolution in `generate_music`: when absent, synthesized
as `APP_BASE_URL.rstrip("/") + "/receive_song"`. -/
def resolveCallback (ps : GenParams) : String :=
  if ps.callbackUrl = "" then pyRstripSlash ps.appBase ++ "/receive_song"
  else ps.callbackUrl

/-- The JSON body POSTed to the provider (`utils/music_generator.py` lines
114-128).  The `style` field is appended only when `style` is truthy and its
stripped, lowercased value differs from `"instrumental"`. -/
def sunoPayload (lyrics style title mood theme callbackUrl : String)
    (customMode instrumental : Bool) : List (String × Json) :=
  [("customMode", .bool customMode), ("instrumental", .bool instrumental),
   ("prompt", .str lyrics), ("title", .str title), ("mood", .str mood),
   ("theme", .str theme), ("model", .str "V4_5"), ("callbackUrl", .str callbackUrl)]
  ++ (if style != "" && pyLower (pyStrip style) != "instrumental" then [("style", .str style)]
      else [])

/-- The payload `generate_music` builds from its parameters, after the
`title or "Untitled"`, `mood or ""`, `theme or ""` defaulting. -/
def generate_music_payload (ps : GenParams) : List (String × Json) :=
  sunoPayload ps.lyrics ps.style (pyStrOr ps.title "Untitled") (pyStrOr ps.mood "")
    (pyStrOr ps.theme "") (resolveCallback ps) ps.customMode ps.instrumental

/-- The inline task-id normalization of `generate_music` (lines 151-169).
For a dict `data` it tries `data.taskId`, `data.task_id`, then the top-level
`taskId`/`task_id` (note: not `data.id`); for a non-empty list `data` it
takes `first = data[0] or {}` and tries `first.taskId`/`first.task_id`/
`first.id`, then the top-level fallbacks — raising `AttributeError`
(`Except.error`) when `first` is truthy but not a dict; otherwise the id
stays `None`. -/
def inlineTaskId (js : Json) : Except Unit Json :=
  match jget js "data" with
  | .obj df =>
    .ok (pyOr (jget (.obj df) "taskId") (pyOr (jget (.obj df) "task_id")
      (pyOr (jget js "taskId") (jget js "task_id"))))
  | .arr (f0 :: _) =>
    match pyOr f0 (.obj []) with
    | .obj ff =>
      .ok (pyOr (jget (.obj ff) "taskId") (pyOr (jget (.obj ff) "task_id")
        (pyOr (jget (.obj ff) "id") (pyOr (jget js "taskId") (jget js "task_id")))))
    | _ => .error ()
  | _ => .ok .null

deriving instance DecidableEq for Except

/-- Result of an orchestrator call or a route handler: response body, HTTP
status, and the store after the call. -/
structure HandlerOut where
  body : Json
  code : Nat
  db : List Song
deriving Repr, DecidableEq

/-- The `202 Generation started` body of `generate_music` (lines 197-203). -/
def generationStartedBody (tid : Json) : Json :=
  .obj [("message", .str "Generation started"), ("task_id", tid),
        ("data", .obj [("taskId", tid)]), ("audio_url", .null)]

/-- `SunoMusicGenerator.generate_music` (`utils/music_generator.py` lines
77-208) after the provider's HTTP response has come back: `respStatus` is the
HTTP status and `respBody` the parsed JSON body (`none` when the body is not
JSON).  A non-dict JSON body makes `resp_json.get(...)` raise
`AttributeError`, which the enclosing `except` maps to the 500 `Unexpected
error` payload.  A database insert failure on the accepted path is logged
and swallowed by the source — the caller still receives the 202 — so `dbOk`
records whether the insert commit succeeds; on failure the store is left
unchanged. -/
def generate_music (ps : GenParams) (respStatus : Nat) (respBody : Option Json)
    (dbOk : Bool) (db : List Song) : HandlerOut :=
  let title := pyStrOr ps.title "Untitled"
  match respBody with
  | none => ⟨.obj [("error", .str "Invalid response from Suno")], 502, db⟩
  | some js =>
    match js with
    | .obj _ =>
      if respStatus != 200 || !(Json.beq (jget js "code") (.num 200)) then
        ⟨.obj [("error", pyOr (jget js "msg") (.str "Suno error")), ("raw_response", js)],
         502, db⟩
      else
        match inlineTaskId js with
        | .error _ => ⟨.obj [("error", .str "Unexpected error")], 500, db⟩
        | .ok tid =>
          if truthy tid then
            ⟨generationStartedBody tid, 202,
             if dbOk then
               insertIfAbsent db tid title ps.lyrics ps.style (pyStrOr ps.mood "")
                 (pyStrOr ps.theme "")
             else db⟩
          else
            ⟨.obj [("error", .str "Suno did not return a recognizable task id"),
                   ("raw_response", js)], 502, db⟩
    | _ => ⟨.obj [("error", .str "Unexpected error")], 500, db⟩

/-- `SunoMusicGenerator.check_status` (`utils/music_generator.py` lines
298-357) after the provider's response has come back.  `Except.error ()`
models an uncaught `AttributeError`: `js.get(...)` (or
`data_field[0].get(...)`) on a value that is not a dict — the method's only
`except` clause catches `RequestException` alone. -/
def check_status (task_id : String) (respStatus : Nat) (respBody : Option Json) :
    Except Unit (Json × Nat) :=
  match respBody with
  | none => .ok (.obj [("error", .str "Invalid JSON from Suno")], respStatus)
  | some js =>
    match js with
    | .obj fields =>
      if respStatus == 404 || Json.beq (jget js "status") (.num 404) then
        .ok (.obj [("task_id", .str task_id), ("status", .str "not_found"),
                   ("message", (fields.lookup "message").getD (.str "Task not found"))], 404)
      else if respStatus != 200 ||
          !(Json.beq (jget js "code") (.num 200) || Json.beq (jget js "code") .null) then
        .ok (.obj [("task_id", .str task_id), ("status", .str "error"),
                   ("message", pyOr (jget js "msg") (pyOr (jget js "error")
                     (.str "Unknown error"))),
                   ("raw_response", js)], respStatus)
      else
        match jget js "data" with
        | .arr (f0 :: _) =>
          match f0 with
          | .obj _ =>
            let audio := pyOr (jget f0 "audio_url") (jget f0 "audioUrl")
            if truthy audio then
              .ok (.obj [("task_id", .str task_id), ("status", .str "completed"),
                         ("audio_url", audio)], 200)
            else
              .ok (.obj [("task_id", .str task_id), ("status", .str "pending")], 202)
          | _ => .error ()
        | .obj df =>
          let audio := pyOr (jget (.obj df) "audio_url") (jget (.obj df) "audioUrl")
          if truthy audio then
            .ok (.obj [("task_id", .str task_id), ("status", .str "completed"),
                       ("audio_url", audio)], 200)
          else
            .ok (.obj [("task_id", .str task_id), ("status", .str "pending")], 202)
        | _ => .ok (.obj [("task_id", .str task_id), ("status", .str "pending")], 202)
    | _ => .error ()

/-- A persisted optional string column as it appears in a `jsonify` body. -/
def optJson : Option String → Json
  | none => .null
  | some s => .str s

/-- `check_status_route` (`utils/routes.py` lines 68-118) given the pair
`(checkBody, checkCode)` returned by `generator.check_status`, the string the
Cloudinary upload helper would return (`uploadResult`, `""` on upload
failure — `upload_to_cloudinary` never raises), and whether the commit
succeeds (`dbOk`; a commit exception is caught by the route's `except` and
leaves the store unchanged). -/
def check_status_route (task_id : String) (checkBody : Json) (checkCode : Nat)
    (uploadResult : String) (dbOk : Bool) (db : List Song) : HandlerOut :=
  if checkCode == 404 ||
      (match checkBody with
       | .obj _ => Json.beq (jget checkBody "error") (.str "Not Found")
       | _ => false) then
    ⟨.obj [("error", .str "Task not found on Suno"), ("task_id", .str task_id)], 404, db⟩
  else if checkCode != 200 ||
      (match checkBody with | .obj _ => false | _ => true) then
    ⟨checkBody, checkCode, db⟩
  else
    let normalized := (extract_task_id checkBody).getD (.str task_id)
    let nested := match jget checkBody "data" with
      | .obj df => Json.obj df
      | _ => .obj []
    let sunoAudio := pyOr (jget checkBody "audio_url") (pyOr (jget checkBody "suno_url")
      (pyOr (jget nested "audio_url") (jget nested "suno_url")))
    match findSong db normalized with
    | none => ⟨.obj [("error", .str "Song not found")], 404, db⟩
    | some song =>
      if truthy sunoAudio && !(optTruthy song.cloudinary_url) then
        if dbOk then
          let song2 := completeSong sunoAudio uploadResult song
          ⟨.obj [("status", .str song2.status.value), ("task_id", normalized),
                 ("audio_url", optJson song2.cloudinary_url), ("lyrics", .str song2.lyrics)],
           if optTruthy song2.cloudinary_url then 200 else 202,
           updateFirst db normalized (completeSong sunoAudio uploadResult)⟩
        else
          ⟨.obj [("error", .str "commit failed")], 500, db⟩
      else
        ⟨.obj [("status", .str song.status.value), ("task_id", normalized),
               ("audio_url", optJson song.cloudinary_url), ("lyrics", .str song.lyrics)],
         if optTruthy song.cloudinary_url then 200 else 202, db⟩

/-- `receive_song` (`utils/routes.py` lines 123-192) given the callback's
JSON body, whether the audio download from the provider succeeds
(`downloadOk`), the string the Cloudinary upload helper returns
(`uploadResult`; the route raises on an empty result and answers 500 with no
store mutation), and whether the commit succeeds (`dbOk`; on failure the
session is rolled back).  A non-dict body makes `data.get(...)` raise, which
the outer `except` maps to a 500. -/
def receive_song (body : Json) (downloadOk : Bool) (uploadResult : String)
    (dbOk : Bool) (db : List Song) : HandlerOut :=
  match body with
  | .obj _ =>
    let task_id := jget body "task_id"
    let audio_url := jget body "audio_url"
    if !(truthy task_id) || !(truthy audio_url) then
      ⟨.obj [("error", .str "Missing task_id or audio_url")], 400, db⟩
    else
      match findSong db task_id with
      | none => ⟨.obj [("error", .str "Song not found")], 404, db⟩
      | some _ =>
        if !downloadOk then
          ⟨.obj [("error", .str "Failed to download audio")], 500, db⟩
        else if uploadResult = "" then
          ⟨.obj [("error", .str "Cloudinary upload failed")], 500, db⟩
        else if !dbOk then
          ⟨.obj [("error", .str "Database update failed")], 500, db⟩
        else
          ⟨.obj [("message", .str "Song stored successfully"), ("task_id", task_id),
                 ("cloudinary_url", .str uploadResult)], 200,
           updateFirst db task_id (completeSong audio_url uploadResult)⟩
  | _ => ⟨.obj [("error", .str "Internal server error")], 500, db⟩

/-- The `style`/`instrumental` computation of the `create_song` route
(`utils/routes.py` lines 29-39): `style = data.get("style", genre)` with
`genre = data.get("genre", "pop")`; when `style.lower() == "instrumental"`,
instrumental mode is forced and `style` falls back to the genre.  `none`
models a `TypeError`/`AttributeError` on a non-string value (HTTP 500). -/
def create_song_style (body : Json) : Option (String × Bool) :=
  match jgetD body "style" (jgetD body "genre" (.str "pop")) with
  | .str style =>
    if pyLower style = "instrumental" then
      match jgetD body "genre" (.str "pop") with
      | .str g => some (g, true)
      | _ => none
    else some (style, false)
  | _ => none

/-- `_unique_title` (`utils/music_generator.py` lines 42-50) with the
timestamp-plus-uuid suffix passed in as `suffix`. -/
def unique_title (title suffix : String) : String :=
  (if title = "" then "Untitled" else pyStrip title) ++ "_" ++ suffix

/-- The provider payload produced by `POST /create_song` with JSON body
`body`: the route computes `style`/`instrumental` (`create_song_style`),
`generate_song` uniquifies the title and generates `lyrics` (the LLM result
is a parameter), and `generate_music` builds the payload with
`custom_mode=True` and no explicit callback URL.  `none` models the 500 path
for non-string request values. -/
def create_song_payload (body : Json) (lyrics suffix appBase : String) :
    Option (List (String × Json)) :=
  match body with
  | .obj _ =>
    match jgetD body "title" (.str "Untitled"), jgetD body "mood" (.str ""),
        jgetD body "theme" (.str "") with
    | .str title, .str mood, .str theme =>
      (create_song_style body).map (fun p =>
        generate_music_payload
          { lyrics := lyrics
            style := p.1
            title := unique_title title suffix
            mood := mood
            theme := theme
            callbackUrl := ""
            appBase := appBase
            customMode := true
            instrumental := p.2 })
    | _, _, _ => none
  | _ => none

/-- One externally-triggered operation on the store, with the behaviour of
the collaborators (provider response, upload result, network and commit
success) recorded in the operation. -/
inductive Op where
  | gen (ps : GenParams) (respStatus : Nat) (respBody : Option Json) (dbOk : Bool)
  | poll (task_id : String) (checkBody : Json) (checkCode : Nat)
      (uploadResult : String) (dbOk : Bool)
  | callback (body : Json) (downloadOk : Bool) (uploadResult : String) (dbOk : Bool)

/-- The store after one operation. -/
def applyOp (op : Op) (db : List Song) : List Song :=
  match op with
  | .gen ps st body k => (generate_music ps st body k db).db
  | .poll tid cb cc u k => (check_status_route tid cb cc u k db).db
  | .callback b d u k => (receive_song b d u k db).db

/-- Stores reachable from the empty store through the system's own flows. -/
inductive Reachable : List Song → Prop where
  | nil : Reachable []
  | step (db : List Song) (op : Op) : Reachable db → Reachable (applyOp op db)

/-- No two persisted rows share a `task_id` (the `unique=True` constraint on
the column, maintained by the insert-if-absent flow). -/
def TaskUnique (db : List Song) : Prop :=
  db.Pairwise (fun a b => a.task_id ≠ b.task_id)

/-- Row-level invariant maintained by every flow of the system: status is
`processing` or `completed`, `error_message` stays `NULL`, `audio_url`
mirrors `cloudinary_url`, and a row with `cloudinary_url` assigned is
`completed`. -/
def SongInv (s : Song) : Prop :=
  (s.status = .processing ∨ s.status = .completed) ∧
  s.error_message = none ∧
  s.audio_url = s.cloudinary_url ∧
  (s.cloudinary_url ≠ none → s.status = .completed)

/-- Store invariant: unique task ids and the row invariant everywhere. -/
def StoreInv (db : List Song) : Prop :=
  TaskUnique db ∧ ∀ s ∈ db, SongInv s

/-- The transition relation the specification allows for `status`: stay put
or move along `pending → processing → {completed, failed}`. -/
def statusStep (a b : SongStatus) : Prop :=
  a = b ∨ (a = .pending ∧ (b = .processing ∨ b = .completed ∨ b = .failed)) ∨
  (a = .processing ∧ (b = .completed ∨ b = .failed))

/-- A provider acceptance response assigning task id `"t"`. -/
def acceptResp : Json := .obj [("code", .num 200), ("data", .obj [("taskId", .str "t")])]

/-- Concrete `generate_music` parameters used in the worked examples. -/
def genPs : GenParams :=
  { lyrics := "ly"
    style := "st"
    title := "ti"
    mood := "mo"
    theme := "th"
    callbackUrl := ""
    appBase := "http://localhost:5000"
    customMode := true
    instrumental := false }

/-- An accepted creation submission for task `"t"`. -/
def opGen : Op := .gen genPs 200 (some acceptResp) true

/-- Store holding the single `processing` row that creation inserts. -/
def dbOne : List Song := applyOp opGen []

/-- The row of `dbOne`. -/
def songOne : Song := mkSong (.str "t") "ti" "ly" "st" "mo" "th"

/-- A provider callback body for task `"t"`. -/
def cbBody : Json := .obj [("task_id", .str "t"), ("audio_url", .str "https://suno/x.mp3")]

/-- A fully successful callback operation for task `"t"`. -/
def opCb : Op := .callback cbBody true "https://cl/a.mp3" true

/-- Store after the creation and one successful callback. -/
def dbTwo : List Song := applyOp opCb dbOne

/-- The completed row of `dbTwo`. -/
def songDone : Song := completeSong (.str "https://suno/x.mp3") "https://cl/a.mp3" songOne

/-- The `check_status` answer a poll observes when the provider reports a
transient audio URL for task `"t"`. -/
def pollBody : Json :=
  .obj [("task_id", .str "t"), ("status", .str "completed"),
        ("audio_url", .str "https://suno/x.mp3")]

/-- The instrumental-scenario request body `{"style":"instrumental","genre":"lofi"}`. -/
def instruBody : Json := .obj [("style", .str "instrumental"), ("genre", .str "lofi")]

theorem Json.beq_iff (a b : Json) : Json.beq a b = true ↔ a = b :=
  ⟨Json.eq_of_beq a b, fun h => h ▸ Json.beq_refl a⟩

theorem completeSong_task_id (su : Json) (u : String) (s : Song) :
    (completeSong su u s).task_id = s.task_id := rfl

theorem completeSong_idem (su : Json) (u : String) (s : Song) :
    completeSong su u (completeSong su u s) = completeSong su u s := rfl

theorem mem_eq_of_taskUnique {db : List Song} {s s' : Song} (h : TaskUnique db)
    (hs : s ∈ db) (hs' : s' ∈ db) (ht : s.task_id = s'.task_id) : s = s' := by
  induction db with
  | nil => cases hs
  | cons x rest ih =>
    rcases List.pairwise_cons.mp h with ⟨hx, hrest⟩
    rcases List.mem_cons.mp hs with hsx | hsr
    · rcases List.mem_cons.mp hs' with hs'x | hs'r
      · rw [hsx, hs'x]
      · exact absurd (hsx ▸ ht) (hx s' hs'r)
    · rcases List.mem_cons.mp hs' with hs'x | hs'r
      · exact absurd (hs'x ▸ ht).symm (hx s hsr)
      · exact ih hrest hsr hs'r

theorem findSong_eq_none_iff {db : List Song} {tid : Json} :
    findSong db tid = none ↔ ∀ s ∈ db, s.task_id ≠ tid := by
  simp [findSong, List.find?_eq_none, Json.beq_iff]

theorem findSong_isSome_iff {db : List Song} {tid : Json} :
    (findSong db tid).isSome ↔ ∃ s ∈ db, s.task_id = tid := by
  simp [findSong, List.find?_isSome, Json.beq_iff]

theorem countTask_nil (tid : Json) : countTask [] tid = 0 := rfl

theorem countTask_cons (x : Song) (db : List Song) (tid : Json) :
    countTask (x :: db) tid = (if x.task_id = tid then 1 else 0) + countTask db tid := by
  by_cases hx : x.task_id = tid
  · simp [countTask, List.filter_cons, Json.beq_iff, hx, Nat.add_comm]
  · simp [countTask, List.filter_cons, Json.beq_iff, hx]

theorem countTask_append (db1 db2 : List Song) (tid : Json) :
    countTask (db1 ++ db2) tid = countTask db1 tid + countTask db2 tid := by
  simp [countTask, List.filter_append]

theorem countTask_eq_zero_iff {db : List Song} {tid : Json} :
    countTask db tid = 0 ↔ ∀ s ∈ db, s.task_id ≠ tid := by
  simp [countTask, List.length_eq_zero, List.filter_eq_nil_iff, Json.beq_iff]

theorem countTask_pos_iff {db : List Song} {tid : Json} :
    0 < countTask db tid ↔ ∃ s ∈ db, s.task_id = tid := by
  rw [Nat.pos_iff_ne_zero, Ne, countTask_eq_zero_iff]
  push_neg
  rfl

theorem countTask_le_one_of_taskUnique {db : List Song} (h : TaskUnique db) (tid : Json) :
    countTask db tid ≤ 1 := by
  induction db with
  | nil => simp [countTask_nil]
  | cons x rest ih =>
    rcases List.pairwise_cons.mp h with ⟨hx, hrest⟩
    rw [countTask_cons]
    by_cases hxt : x.task_id = tid
    · have hz : countTask rest tid = 0 := by
        refine countTask_eq_zero_iff.mpr (fun s hs hst => ?_)
        exact hx s hs (hxt.trans hst.symm)
      simp [hxt, hz]
    · simpa [hxt] using ih hrest

theorem songInv_mkSong (tid : Json) (t l st m th : String) :
    SongInv (mkSong tid t l st m th) := by
  refine ⟨Or.inl rfl, rfl, rfl, fun h => absurd rfl h⟩

theorem songInv_completeSong {s : Song} (h : SongInv s) (su : Json) (u : String) :
    SongInv (completeSong su u s) :=
  ⟨Or.inr rfl, h.2.1, rfl, fun _ => rfl⟩

theorem inv_nil : StoreInv [] :=
  ⟨List.Pairwise.nil, fun s hs => absurd hs (List.not_mem_nil s)⟩

theorem inv_insertIfAbsent {db : List Song} (h : StoreInv db) (tid : Json)
    (t l st m th : String) : StoreInv (insertIfAbsent db tid t l st m th) := by
  unfold insertIfAbsent
  split
  · exact h
  case isFalse hnone =>
    have habs : findSong db tid = none := by
      cases hf : findSong db tid with
      | none => rfl
      | some s => exact absurd (by simp [hf]) hnone
    have hall : ∀ s ∈ db, s.task_id ≠ tid := findSong_eq_none_iff.mp habs
    constructor
    · refine List.pairwise_append.mpr ⟨h.1, List.pairwise_singleton _ _, ?_⟩
      intro a ha b hb
      have hb' : b = mkSong tid t l st m th := List.mem_singleton.mp hb
      rw [hb']
      exact hall a ha
    · intro s hs
      rcases List.mem_append.mp hs with hmem | hmem
      · exact h.2 s hmem
      · have : s = mkSong tid t l st m th := List.mem_singleton.mp hmem
        rw [this]
        exact songInv_mkSong tid t l st m th

theorem mem_updateFirst {db : List Song} {tid : Json} {f : Song → Song} {s' : Song}
    (h : s' ∈ updateFirst db tid f) :
    s' ∈ db ∨ ∃ s, s ∈ db ∧ s.task_id = tid ∧ s' = f s := by
  induction db with
  | nil => simp [updateFirst] at h
  | cons x rest ih =>
    rw [updateFirst] at h
    by_cases hx : Json.beq x.task_id tid = true
    · rw [if_pos hx] at h
      rcases List.mem_cons.mp h with hfx | hr
      · exact Or.inr ⟨x, List.mem_cons_self x rest, Json.beq_iff _ _ |>.mp hx, hfx⟩
      · exact Or.inl (List.mem_cons_of_mem x hr)
    · rw [if_neg hx] at h
      rcases List.mem_cons.mp h with hfx | hr
      · exact Or.inl (hfx ▸ List.mem_cons_self x rest)
      · rcases ih hr with hmem | ⟨s, hsmem, hst, hsf⟩
        · exact Or.inl (List.mem_cons_of_mem x hmem)
        · exact Or.inr ⟨s, List.mem_cons_of_mem x hsmem, hst, hsf⟩

theorem updateFirst_taskUnique {db : List Song} {tid : Json} {f : Song → Song}
    (hf : ∀ x, (f x).task_id = x.task_id) (h : TaskUnique db) :
    TaskUnique (updateFirst db tid f) := by
  induction db with
  | nil => exact h
  | cons x rest ih =>
    rcases List.pairwise_cons.mp h with ⟨hx, hrest⟩
    rw [updateFirst]
    by_cases hxt : Json.beq x.task_id tid = true
    · rw [if_pos hxt]
      exact List.pairwise_cons.mpr ⟨fun b hb => (hf x) ▸ hx b hb, hrest⟩
    · rw [if_neg hxt]
      refine List.pairwise_cons.mpr ⟨?_, ih hrest⟩
      intro b hb
      rcases mem_updateFirst hb with hmem | ⟨s, hsmem, _, hsf⟩
      · exact hx b hmem
      · rw [hsf, hf s]
        exact hx s hsmem

theorem inv_updateFirst_complete {db : List Song} (h : StoreInv db) (tid su : Json)
    (u : String) : StoreInv (updateFirst db tid (completeSong su u)) := by
  constructor
  · exact updateFirst_taskUnique (fun x => completeSong_task_id su u x) h.1
  · intro s' hs'
    rcases mem_updateFirst hs' with hmem | ⟨s, hsmem, _, hsf⟩
    · exact h.2 s' hmem
    · rw [hsf]
      exact songInv_completeSong (h.2 s hsmem) su u

theorem generate_music_db_shape (ps : GenParams) (st : Nat) (body : Option Json)
    (dbOk : Bool) (db : List Song) :
    (generate_music ps st body dbOk db).db = db ∨
    ∃ tid, (generate_music ps st body dbOk db).db =
      insertIfAbsent db tid (pyStrOr ps.title "Untitled") ps.lyrics ps.style
        (pyStrOr ps.mood "") (pyStrOr ps.theme "") := by
  unfold generate_music
  dsimp only
  repeat' split
  all_goals first
    | exact Or.inl rfl
    | exact Or.inr ⟨_, rfl⟩

theorem check_status_route_db_shape (t : String) (cb : Json) (cc : Nat) (u : String)
    (k : Bool) (db : List Song) :
    (check_status_route t cb cc u k db).db = db ∨
    ∃ tid su, (check_status_route t cb cc u k db).db =
      updateFirst db tid (completeSong su u) := by
  unfold check_status_route
  dsimp only
  repeat' split
  all_goals first
    | exact Or.inl rfl
    | exact Or.inr ⟨_, _, rfl⟩

theorem receive_song_db_shape (body : Json) (d : Bool) (u : String) (k : Bool)
    (db : List Song) :
    (receive_song body d u k db).db = db ∨
    ∃ tid su, (receive_song body d u k db).db = updateFirst db tid (completeSong su u) := by
  unfold receive_song
  dsimp only
  repeat' split
  all_goals first
    | exact Or.inl rfl
    | exact Or.inr ⟨_, _, rfl⟩

theorem inv_applyOp (op : Op) {db : List Song} (h : StoreInv db) :
    StoreInv (applyOp op db) := by
  cases op with
  | gen ps st body k =>
    rcases generate_music_db_shape ps st body k db with hsame | ⟨tid, heq⟩
    · rw [applyOp, hsame]; exact h
    · rw [applyOp, heq]; exact inv_insertIfAbsent h tid _ _ _ _ _
  | poll t cb cc u k =>
    rcases check_status_route_db_shape t cb cc u k db with hsame | ⟨tid, su, heq⟩
    · rw [applyOp, hsame]; exact h
    · rw [applyOp, heq]; exact inv_updateFirst_complete h tid su u
  | callback b d u k =>
    rcases receive_song_db_shape b d u k db with hsame | ⟨tid, su, heq⟩
    · rw [applyOp, hsame]; exact h
    · rw [applyOp, heq]; exact inv_updateFirst_complete h tid su u

theorem reachable_inv {db : List Song} (h : Reachable db) : StoreInv db := by
  induction h with
  | nil => exact inv_nil
  | step db op _ ih => exact inv_applyOp op ih

theorem countTask_insertIfAbsent_self {db : List Song} {tid : Json}
    (h : countTask db tid ≤ 1) (t l s m th : String) :
    countTask (insertIfAbsent db tid t l s m th) tid = 1 := by
  unfold insertIfAbsent
  split
  case isTrue hsome =>
    have hpos : 0 < countTask db tid := countTask_pos_iff.mpr (findSong_isSome_iff.mp hsome)
    omega
  case isFalse hnone =>
    have hfs : findSong db tid = none := Option.not_isSome_iff_eq_none.mp (by simpa using hnone)
    have h0 : countTask db tid = 0 := countTask_eq_zero_iff.mpr (findSong_eq_none_iff.mp hfs)
    rw [countTask_append, h0, countTask_cons, countTask_nil]
    simp [mkSong]

theorem insertIfAbsent_of_pos {db : List Song} {tid : Json}
    (h : 0 < countTask db tid) (t l s m th : String) :
    insertIfAbsent db tid t l s m th = db := by
  unfold insertIfAbsent
  rw [if_pos (findSong_isSome_iff.mpr (countTask_pos_iff.mp h))]

theorem findSong_updateFirst {f : Song → Song} (hf : ∀ x, (f x).task_id = x.task_id)
    (db : List Song) (tid : Json) :
    findSong (updateFirst db tid f) tid = (findSong db tid).map f := by
  induction db with
  | nil => rfl
  | cons x rest ih =>
    rw [updateFirst]
    by_cases hx : Json.beq x.task_id tid = true
    · rw [if_pos hx]
      have hfx : Json.beq (f x).task_id tid = true := by rw [hf x]; exact hx
      simp [findSong, List.find?_cons, hfx, hx]
    · rw [if_neg hx]
      simp only [findSong, List.find?_cons] at ih ⊢
      have hfalse : Json.beq x.task_id tid = false := by simpa using hx
      rw [hfalse]
      exact ih

theorem updateFirst_idem {f : Song → Song} (hfi : ∀ x, f (f x) = f x)
    (hf : ∀ x, (f x).task_id = x.task_id) (db : List Song) (tid : Json) :
    updateFirst (updateFirst db tid f) tid f = updateFirst db tid f := by
  induction db with
  | nil => rfl
  | cons x rest ih =>
    rw [updateFirst]
    by_cases hx : Json.beq x.task_id tid = true
    · rw [if_pos hx, updateFirst]
      have hfx : Json.beq (f x).task_id tid = true := by rw [hf x]; exact hx
      rw [if_pos hfx, hfi x]
    · rw [if_neg hx, updateFirst, if_neg hx, ih]

/-- When `generate_music` answers 202, the provider response was accepted,
the body is the `Generation started` payload for a truthy task id, and the
store went through the insert-if-absent step for that id when the insert
commit succeeded, and is untouched when the commit failed. -/
theorem generate_music_accepted (ps : GenParams) (st : Nat) (body : Option Json)
    (dbOk : Bool) (db : List Song)
    (hacc : (generate_music ps st body dbOk db).code = 202) :
    ∃ tid, truthy tid = true ∧
      (generate_music ps st body dbOk db).body = generationStartedBody tid ∧
      (generate_music ps st body dbOk db).db =
        (if dbOk then
          insertIfAbsent db tid (pyStrOr ps.title "Untitled") ps.lyrics ps.style
            (pyStrOr ps.mood "") (pyStrOr ps.theme "")
        else db) := by
  cases body with
  | none => simp [generate_music] at hacc
  | some js =>
    cases js with
    | obj fields =>
      rw [generate_music] at hacc ⊢
      by_cases hcode : (st != 200 || !Json.beq (jget (.obj fields) "code") (.num 200)) = true
      · rw [if_pos hcode] at hacc
        simp at hacc
      · rw [if_neg hcode] at hacc ⊢
        cases htid : inlineTaskId (.obj fields) with
        | error e =>
          rw [htid] at hacc
          simp at hacc
        | ok tid =>
          rw [htid] at hacc
          dsimp only at hacc
          by_cases htr : truthy tid = true
          · exact ⟨tid, htr, by simp [htr], by simp [htr]⟩
          · rw [if_neg htr] at hacc
            simp at hacc
    | null => simp [generate_music] at hacc
    | bool b => simp [generate_music] at hacc
    | num n => simp [generate_music] at hacc
    | str s => simp [generate_music] at hacc
    | arr xs => simp [generate_music] at hacc

/-- Shape of the store effect of any operation: unchanged, an
insert-if-absent, or a completing update of one row. -/
theorem applyOp_shape (op : Op) (db : List Song) :
    applyOp op db = db ∨
    (∃ tid t l s m th, applyOp op db = insertIfAbsent db tid t l s m th) ∨
    (∃ tid su u, applyOp op db = updateFirst db tid (completeSong su u)) := by
  cases op with
  | gen ps st body k =>
    rcases generate_music_db_shape ps st body k db with h | ⟨tid, h⟩
    · exact Or.inl h
    · exact Or.inr (Or.inl ⟨tid, _, _, _, _, _, h⟩)
  | poll t cb cc u k =>
    rcases check_status_route_db_shape t cb cc u k db with h | ⟨tid, su, h⟩
    · exact Or.inl h
    · exact Or.inr (Or.inr ⟨tid, su, u, h⟩)
  | callback b d u k =>
    rcases receive_song_db_shape b d u k db with h | ⟨tid, su, h⟩
    · exact Or.inl h
    · exact Or.inr (Or.inr ⟨tid, su, u, h⟩)

/-- Evaluation of the callback handler's store effect: the store changes
(via the completing update) exactly when the body carries truthy `task_id`
and `audio_url`, the row exists, the download succeeds, the upload returns a
non-empty URL, and the commit succeeds. -/
theorem receive_song_eval (fields : List (String × Json)) (d : Bool) (u : String)
    (k : Bool) (db : List Song) :
    (receive_song (.obj fields) d u k db).db =
      if truthy (jget (.obj fields) "task_id") && truthy (jget (.obj fields) "audio_url") &&
          (findSong db (jget (.obj fields) "task_id")).isSome && d && !(u == "") && k then
        updateFirst db (jget (.obj fields) "task_id")
          (completeSong (jget (.obj fields) "audio_url") u)
      else db := by
  rw [receive_song]
  by_cases h1 : truthy (jget (.obj fields) "task_id") = true
  case neg =>
    have hb : truthy (jget (.obj fields) "task_id") = false := by
      simpa using h1
    simp [hb]
  case pos =>
    by_cases h2 : truthy (jget (.obj fields) "audio_url") = true
    case neg =>
      have hb : truthy (jget (.obj fields) "audio_url") = false := by
        simpa using h2
      simp [h1, hb]
    case pos =>
      simp only [h1, h2, Bool.not_true, Bool.or_self, Bool.false_or, Bool.or_false,
        Bool.true_and, Bool.false_eq_true, if_false, ite_false]
      cases hf : findSong db (jget (.obj fields) "task_id") with
      | none => simp [hf]
      | some x =>
        simp only [hf, Option.isSome_some, Bool.true_and]
        cases d with
        | false => simp
        | true =>
          simp only [Bool.not_true, Bool.false_eq_true, if_false, ite_false, Bool.true_and]
          by_cases hu : u = ""
          · simp [hu]
          · have hub : (u == "") = false := by simpa using hu
            simp only [hu, if_false, ite_false, hub, Bool.not_false, Bool.true_and]
            cases k with
            | false => simp
            | true => simp

/-- Re-running the callback handler with the same body and the same
collaborator outcomes leaves the store where the first run put it. -/
theorem receive_song_db_idem (body : Json) (d : Bool) (u : String) (k : Bool)
    (db : List Song) :
    (receive_song body d u k (receive_song body d u k db).db).db =
      (receive_song body d u k db).db := by
  cases body with
  | obj fields =>
    rw [receive_song_eval fields d u k db]
    by_cases hc : (truthy (jget (.obj fields) "task_id") &&
        truthy (jget (.obj fields) "audio_url") &&
        (findSong db (jget (.obj fields) "task_id")).isSome && d && !(u == "") && k) = true
    · rw [if_pos hc, receive_song_eval]
      simp only [Bool.and_eq_true] at hc
      obtain ⟨⟨⟨⟨⟨h1, h2⟩, h3⟩, h4⟩, h5⟩, h6⟩ := hc
      have hfind2 : (findSong (updateFirst db (jget (.obj fields) "task_id")
          (completeSong (jget (.obj fields) "audio_url") u))
          (jget (.obj fields) "task_id")).isSome = true := by
        rw [findSong_updateFirst (fun x => completeSong_task_id _ _ x)]
        cases hf : findSong db (jget (.obj fields) "task_id") with
        | none => rw [hf] at h3; simp at h3
        | some x => simp
      rw [if_pos (by simp [h1, h2, h4, h5, h6, hfind2])]
      exact updateFirst_idem (fun x => completeSong_idem _ _ x)
        (fun x => completeSong_task_id _ _ x) db _
    · rw [if_neg hc, receive_song_eval, if_neg hc]
  | null => rfl
  | bool b => rfl
  | num n => rfl
  | str s => rfl
  | arr xs => rfl

theorem reachable_dbOne : Reachable dbOne := Reachable.step [] opGen Reachable.nil

theorem reachable_dbTwo : Reachable dbTwo := Reachable.step dbOne opCb reachable_dbOne

/-- C1 counterexample: an accepted provider submission whose swallowed
database insert fails (`music_generator.py` 193-194 logs and discards the
exception) still answers 202 with task id `"t"` but leaves no row at all —
afterwards zero records exist with that task id, not exactly one. -/
theorem generate_music_insert_failure_leaves_no_row :
    (generate_music genPs 200 (some acceptResp) false []).code = 202 ∧
    jget (generate_music genPs 200 (some acceptResp) false []).body "task_id" =
      .str "t" ∧
    (generate_music genPs 200 (some acceptResp) false []).db = [] ∧
    countTask (generate_music genPs 200 (some acceptResp) false []).db (.str "t") =
      0 := by
  decide

/-- C1 corrected: for every provider submission accepted by `generate_music`
(a 202 answer) on a reachable store, at most one Song row exists afterwards
with the accepted task id (the `task_id` of the returned payload) — exactly
one when the insert commit succeeds, while a swallowed insert failure can
leave zero — and invoking the insert-if-absent step again with that id,
whatever the metadata, never creates a second row: it leaves exactly one. -/
theorem generate_music_creation_idempotent (ps : GenParams) (st : Nat)
    (body : Option Json) (dbOk : Bool) (db : List Song) (hdb : Reachable db)
    (hacc : (generate_music ps st body dbOk db).code = 202) :
    countTask (generate_music ps st body dbOk db).db
        (jget (generate_music ps st body dbOk db).body "task_id") ≤ 1 ∧
    (dbOk = true →
      countTask (generate_music ps st body dbOk db).db
          (jget (generate_music ps st body dbOk db).body "task_id") = 1 ∧
      ∀ t l s m th,
        insertIfAbsent (generate_music ps st body dbOk db).db
            (jget (generate_music ps st body dbOk db).body "task_id") t l s m th =
          (generate_music ps st body dbOk db).db) ∧
    ∀ t l s m th,
      countTask (insertIfAbsent (generate_music ps st body dbOk db).db
          (jget (generate_music ps st body dbOk db).body "task_id") t l s m th)
        (jget (generate_music ps st body dbOk db).body "task_id") = 1 := by
  obtain ⟨tid, htr, hbody, hdbeq⟩ := generate_music_accepted ps st body dbOk db hacc
  have hjget : jget (generate_music ps st body dbOk db).body "task_id" = tid := by
    rw [hbody]
    rfl
  have hle := countTask_le_one_of_taskUnique (reachable_inv hdb).1 tid
  cases dbOk with
  | true =>
    have hdbeq1 : (generate_music ps st body true db).db =
        insertIfAbsent db tid (pyStrOr ps.title "Untitled") ps.lyrics ps.style
          (pyStrOr ps.mood "") (pyStrOr ps.theme "") := by
      rw [hdbeq]
      rfl
    have hcount : countTask (generate_music ps st body true db).db tid = 1 := by
      rw [hdbeq1]
      exact countTask_insertIfAbsent_self hle _ _ _ _ _
    refine ⟨by rw [hjget, hcount], ?_, ?_⟩
    · intro _
      refine ⟨by rw [hjget]; exact hcount, ?_⟩
      intro t l s m th
      rw [hjget]
      exact insertIfAbsent_of_pos (by rw [hcount]; exact Nat.one_pos) t l s m th
    · intro t l s m th
      rw [hjget,
        insertIfAbsent_of_pos (by rw [hcount]; exact Nat.one_pos) t l s m th]
      exact hcount
  | false =>
    have hdbeq0 : (generate_music ps st body false db).db = db := by
      rw [hdbeq]
      rfl
    refine ⟨by rw [hjget, hdbeq0]; exact hle, ?_, ?_⟩
    · intro hk
      exact absurd hk (by decide)
    · intro t l s m th
      rw [hjget, hdbeq0]
      exact countTask_insertIfAbsent_self hle t l s m th

theorem generate_music_creation_idempotent_witness :
    countTask (generate_music genPs 200 (some acceptResp) true []).db
        (jget (generate_music genPs 200 (some acceptResp) true []).body "task_id")
      ≤ 1 ∧
    countTask (generate_music genPs 200 (some acceptResp) true []).db
        (jget (generate_music genPs 200 (some acceptResp) true []).body "task_id")
      = 1 ∧
    insertIfAbsent (generate_music genPs 200 (some acceptResp) true []).db
        (jget (generate_music genPs 200 (some acceptResp) true []).body "task_id")
        "t2" "l2" "s2" "m2" "th2" =
      (generate_music genPs 200 (some acceptResp) true []).db ∧
    countTask (insertIfAbsent (generate_music genPs 200 (some acceptResp) true []).db
        (jget (generate_music genPs 200 (some acceptResp) true []).body "task_id")
        "t2" "l2" "s2" "m2" "th2")
      (jget (generate_music genPs 200 (some acceptResp) true []).body "task_id") = 1 := by
  have h := generate_music_creation_idempotent genPs 200 (some acceptResp) true []
    Reachable.nil (by decide)
  exact ⟨h.1, (h.2.1 rfl).1, (h.2.1 rfl).2 "t2" "l2" "s2" "m2" "th2",
    h.2.2 "t2" "l2" "s2" "m2" "th2"⟩

/-- C2: across every operation (creation insert, poll-path update, callback
update) on a reachable store, a row's status only moves along
`pending → processing → {completed, failed}`, and a `completed` row never
transitions to any other status. -/
theorem song_status_monotone (db : List Song) (op : Op) (hdb : Reachable db)
    (s s' : Song) (hs : s ∈ db) (hs' : s' ∈ applyOp op db)
    (ht : s.task_id = s'.task_id) :
    statusStep s.status s'.status ∧ (s.status = .completed → s'.status = .completed) := by
  have hinv := reachable_inv hdb
  have same_case : s = s' →
      statusStep s.status s'.status ∧ (s.status = .completed → s'.status = .completed) := by
    intro hss
    subst hss
    exact ⟨Or.inl rfl, fun h => h⟩
  rcases applyOp_shape op db with heq | ⟨tid, t, l, s2, m, th, heq⟩ | ⟨tid, su, u, heq⟩
  · rw [heq] at hs'
    exact same_case (mem_eq_of_taskUnique hinv.1 hs hs' ht)
  · rw [heq] at hs'
    unfold insertIfAbsent at hs'
    split at hs'
    · exact same_case (mem_eq_of_taskUnique hinv.1 hs hs' ht)
    case isFalse hnone =>
      rcases List.mem_append.mp hs' with hmem | hmem
      · exact same_case (mem_eq_of_taskUnique hinv.1 hs hmem ht)
      · exfalso
        have hnew : s' = mkSong tid t l s2 m th := List.mem_singleton.mp hmem
        have hfs : findSong db tid = none :=
          Option.not_isSome_iff_eq_none.mp (by simpa using hnone)
        have hstid : s.task_id = tid := by rw [ht, hnew]; rfl
        exact findSong_eq_none_iff.mp hfs s hs hstid
  · rw [heq] at hs'
    rcases mem_updateFirst hs' with hmem | ⟨x, hx, hxt, hxf⟩
    · exact same_case (mem_eq_of_taskUnique hinv.1 hs hmem ht)
    · have hsx : s = x := by
        refine mem_eq_of_taskUnique hinv.1 hs hx ?_
        rw [ht, hxf]
        rfl
      have hs'c : s'.status = .completed := by rw [hxf]; rfl
      have hstat := (hinv.2 s hs).1
      constructor
      · rcases hstat with hp | hc
        · exact Or.inr (Or.inr ⟨hp, Or.inl hs'c⟩)
        · exact Or.inl (hc.trans hs'c.symm)
      · intro _
        exact hs'c

theorem song_status_monotone_witness :
    statusStep SongStatus.processing SongStatus.completed ∧
    (SongStatus.processing = SongStatus.completed →
      SongStatus.completed = SongStatus.completed) :=
  song_status_monotone dbOne opCb reachable_dbOne songOne songDone
    (by decide) (by decide) (by decide)

/-- C3 counterexample: two successful callback runs for the same
`{task_id, audio_url}` overwrite `cloudinary_url` with each run's fresh
upload result — the second run is neither a no-op nor an overwrite with an
identical value, and `cloudinary_url` is written more than once. -/
theorem receive_song_second_run_overwrites :
    (receive_song cbBody true "https://cl/a.mp3" true dbOne).code = 200 ∧
    (findSong (receive_song cbBody true "https://cl/a.mp3" true dbOne).db
        (.str "t")).map Song.cloudinary_url = some (some "https://cl/a.mp3") ∧
    (receive_song cbBody true "https://cl/b.mp3" true
        (receive_song cbBody true "https://cl/a.mp3" true dbOne).db).code = 200 ∧
    (findSong (receive_song cbBody true "https://cl/b.mp3" true
        (receive_song cbBody true "https://cl/a.mp3" true dbOne).db).db
        (.str "t")).map Song.cloudinary_url = some (some "https://cl/b.mp3") ∧
    some (some "https://cl/b.mp3") ≠ some (some "https://cl/a.mp3") := by
  decide

/-- C3 corrected: the callback handler is idempotent only relative to the
collaborators' outcomes — re-running it with the same body and the same
download/upload/commit outcomes (in particular the same upload URL) leaves
the store exactly where the first run put it — and on every reachable store
a row whose `cloudinary_url` is set has status `completed`. -/
theorem receive_song_reconciliation (body : Json) (d : Bool) (u : String) (k : Bool)
    (db : List Song) (hdb : Reachable db) :
    (receive_song body d u k (receive_song body d u k db).db).db =
      (receive_song body d u k db).db ∧
    ∀ s ∈ db, s.cloudinary_url ≠ none → s.status = .completed :=
  ⟨receive_song_db_idem body d u k db,
   fun s hs => ((reachable_inv hdb).2 s hs).2.2.2⟩

theorem receive_song_reconciliation_witness :
    (receive_song cbBody true "https://cl/a.mp3" true
        (receive_song cbBody true "https://cl/a.mp3" true dbOne).db).db =
      (receive_song cbBody true "https://cl/a.mp3" true dbOne).db :=
  (receive_song_reconciliation cbBody true "https://cl/a.mp3" true dbOne
    reachable_dbOne).1

/-- C4: on every reachable store, every row's `audio_url` equals its
`cloudinary_url` — the alias never carries an independent value. -/
theorem audio_url_mirrors_cloudinary_url (db : List Song) (hdb : Reachable db) :
    ∀ s ∈ db, s.audio_url = s.cloudinary_url :=
  fun s hs => ((reachable_inv hdb).2 s hs).2.2.1

theorem audio_url_mirrors_cloudinary_url_witness :
    songDone.audio_url = songDone.cloudinary_url :=
  audio_url_mirrors_cloudinary_url dbTwo reachable_dbTwo songDone (by decide)

/-- C5: `extract_task_id` probes, in order, the top-level keys
`id`/`task_id`/`taskId`/`taskID`, then the same keys in a nested `data`
dict, then in each dict of a nested `data` list, then in a nested
`metadata` dict, returning the first non-empty (truthy) match, and `none`
for `{}` or `None`; the named spec examples all return `"abc"`, and the
remaining conjuncts exhibit the probing order (key order within a level,
truthy-only matches, top level before `data` before `metadata`). -/
theorem extract_task_id_ordered_probing :
    extract_task_id (.obj [("data", .obj [("taskId", .str "abc")])]) = some (.str "abc") ∧
    extract_task_id (.obj [("task_id", .str "abc")]) = some (.str "abc") ∧
    extract_task_id (.obj [("data", .arr [.obj [("id", .str "abc")]])]) =
      some (.str "abc") ∧
    extract_task_id (.obj [("metadata", .obj [("taskId", .str "abc")])]) =
      some (.str "abc") ∧
    extract_task_id (.obj []) = none ∧
    extract_task_id .null = none ∧
    extract_task_id (.obj [("task_id", .str "a"), ("id", .str "b")]) = some (.str "b") ∧
    extract_task_id (.obj [("id", .str ""), ("task_id", .str "abc")]) =
      some (.str "abc") ∧
    extract_task_id (.obj [("id", .str "top"), ("data", .obj [("taskId", .str "d")])]) =
      some (.str "top") ∧
    extract_task_id (.obj [("data", .obj [("taskId", .str "d")]),
        ("metadata", .obj [("taskId", .str "m")])]) = some (.str "d") := by
  decide

/-- C6 counterexample: the provider acceptance `{"code":200,"data":{"id":"abc"}}`
does not yield task id `"abc"`: `generate_music` answers the 502
missing-task-id failure and inserts no row. -/
theorem generate_music_data_id_not_extracted :
    (generate_music genPs 200
        (some (.obj [("code", .num 200), ("data", .obj [("id", .str "abc")])])) true []).code
      = 502 ∧
    jget (generate_music genPs 200
        (some (.obj [("code", .num 200), ("data", .obj [("id", .str "abc")])])) true
      []).body
      "error" = .str "Suno did not return a recognizable task id" ∧
    (generate_music genPs 200
        (some (.obj [("code", .num 200), ("data", .obj [("id", .str "abc")])])) true
      []).db
      = [] := by
  decide

/-- C6 corrected: on an accepted response, `generate_music` extracts the
task id from a `data` object via `data.taskId`/`data.task_id` or the
top-level `taskId`/`task_id` fallbacks — but not `data.id` — and from a
non-empty `data` list via the first element's `taskId`/`task_id`/`id` plus
the same fallbacks; `{"code":200,"data":{"id":"abc"}}` therefore ends in the
502 missing-task-id failure. -/
theorem generate_music_extraction_rules (ps : GenParams) (dbOk : Bool)
    (db : List Song) :
    ((generate_music ps 200 (some (.obj [("code", .num 200),
        ("data", .obj [("taskId", .str "abc")])])) dbOk db).code = 202 ∧
      jget (generate_music ps 200 (some (.obj [("code", .num 200),
        ("data", .obj [("taskId", .str "abc")])])) dbOk db).body "task_id" = .str "abc") ∧
    ((generate_music ps 200 (some (.obj [("code", .num 200),
        ("data", .obj [("task_id", .str "abc")])])) dbOk db).code = 202) ∧
    ((generate_music ps 200 (some (.obj [("code", .num 200),
        ("data", .obj []), ("taskId", .str "abc")])) dbOk db).code = 202 ∧
      jget (generate_music ps 200 (some (.obj [("code", .num 200),
        ("data", .obj []), ("taskId", .str "abc")])) dbOk db).body "task_id" = .str "abc") ∧
    ((generate_music ps 200 (some (.obj [("code", .num 200),
        ("data", .arr [.obj [("id", .str "abc")]])])) dbOk db).code = 202 ∧
      jget (generate_music ps 200 (some (.obj [("code", .num 200),
        ("data", .arr [.obj [("id", .str "abc")]])])) dbOk db).body "task_id" = .str "abc") ∧
    ((generate_music ps 200 (some (.obj [("code", .num 200),
        ("data", .obj [("id", .str "abc")])])) dbOk db).code = 502) := by
  refine ⟨⟨?_, ?_⟩, ?_, ⟨?_, ?_⟩, ⟨?_, ?_⟩, ?_⟩ <;> rfl

/-- C7 counterexample: for an unknown task the provider may answer 404 with
a JSON body that is not an object (here `[]`): `check_status` then raises
`AttributeError` (`js.get` on a non-dict, caught by no handler) instead of
returning a `not_found` result; and a non-JSON 404 body produces the
invalid-JSON error payload, not `not_found`. -/
theorem check_status_raises_on_non_object_body :
    check_status "t" 404 (some (.arr [])) = .error () ∧
    check_status "t" 404 none =
      .ok (.obj [("error", .str "Invalid JSON from Suno")], 404) := by
  decide

/-- C7 corrected: `check_status` classifies provider responses as follows.
A non-JSON body yields the invalid-JSON error payload carrying the
provider's HTTP status.  When the body is a JSON object: provider HTTP 404,
or a `status` field equal to 404, yields `not_found`/404; otherwise a
non-200 HTTP status (or a provider error code) yields `error` carrying the
provider's HTTP status; a visible audio URL yields `completed`/200; and
otherwise `pending`/202.  A JSON body that is not an object makes the
handler raise (`Except.error`), so the routine is not total on arbitrary
response shapes. -/
theorem check_status_classification (t : String) (st : Nat)
    (fields : List (String × Json)) :
    (check_status t st none = .ok (.obj [("error", .str "Invalid JSON from Suno")], st)) ∧
    (check_status t 404 (some (.obj fields)) =
      .ok (.obj [("task_id", .str t), ("status", .str "not_found"),
        ("message", (fields.lookup "message").getD (.str "Task not found"))], 404)) ∧
    (jget (.obj fields) "status" = .num 404 →
      check_status t st (some (.obj fields)) =
        .ok (.obj [("task_id", .str t), ("status", .str "not_found"),
          ("message", (fields.lookup "message").getD (.str "Task not found"))], 404)) ∧
    (st ≠ 200 → st ≠ 404 → jget (.obj fields) "status" ≠ .num 404 →
      check_status t st (some (.obj fields)) =
        .ok (.obj [("task_id", .str t), ("status", .str "error"),
          ("message", pyOr (jget (.obj fields) "msg")
            (pyOr (jget (.obj fields) "error") (.str "Unknown error"))),
          ("raw_response", .obj fields)], st)) ∧
    (check_status t 200 (some (.obj [("code", .num 200),
        ("data", .obj [("audio_url", .str "https://suno/x.mp3")])])) =
      .ok (.obj [("task_id", .str t), ("status", .str "completed"),
        ("audio_url", .str "https://suno/x.mp3")], 200)) ∧
    (check_status t 200 (some (.obj [("code", .num 200)])) =
      .ok (.obj [("task_id", .str t), ("status", .str "pending")], 202)) ∧
    (∀ js : Json, (∀ fs, js ≠ .obj fs) → check_status t st (some js) = .error ()) := by
  refine ⟨rfl, ?_, ?_, ?_, rfl, rfl, ?_⟩
  · simp [check_status]
  · intro h404
    simp [check_status, h404, Json.beq_refl]
  · intro hst200 hst404 hfield
    have hb1 : (st == 404) = false := by simpa using hst404
    have hb2 : Json.beq (jget (.obj fields) "status") (.num 404) = false := by
      rw [← Bool.not_eq_true, Json.beq_iff]
      exact hfield
    have hb3 : (st != 200) = true := by simpa using hst200
    simp [check_status, hb1, hb2, hb3]
  · intro js hjs
    cases js with
    | obj fs => exact absurd rfl (hjs fs)
    | null => rfl
    | bool b => rfl
    | num n => rfl
    | str s => rfl
    | arr xs => rfl

theorem check_status_classification_witness :
    ((500 : Nat) ≠ 200) ∧ ((500 : Nat) ≠ 404) ∧
    (jget (.obj ([] : List (String × Json))) "status" ≠ .num 404) ∧
    check_status "t" 500 (some (.obj [])) =
      .ok (.obj [("task_id", .str "t"), ("status", .str "error"),
        ("message", pyOr (jget (.obj ([] : List (String × Json))) "msg")
          (pyOr (jget (.obj ([] : List (String × Json))) "error")
            (.str "Unknown error"))),
        ("raw_response", .obj [])], 500) :=
  ⟨by decide, by decide, by decide,
   (check_status_classification "t" 500 []).2.2.2.1 (by decide) (by decide) (by decide)⟩

/-- C8: evaluation at the failing input.  A poll for task `"t"` observes a
transient audio URL while the row's `cloudinary_url` is unset, and the
upload helper fails, returning `""`.  The route nevertheless writes
`suno_url`, sets `cloudinary_url` and `audio_url` to `""`, flips the status
to `completed` and commits — the row is not left unmodified — and the
response body reports status `"completed"` with an empty `audio_url`
(HTTP 202). -/
theorem check_status_route_commits_on_upload_failure :
    (check_status_route "t" pollBody 200 "" true dbOne).db =
      [completeSong (.str "https://suno/x.mp3") "" songOne] ∧
    (check_status_route "t" pollBody 200 "" true dbOne).db ≠ dbOne ∧
    (check_status_route "t" pollBody 200 "" true dbOne).code = 202 ∧
    jget (check_status_route "t" pollBody 200 "" true dbOne).body "status" =
      .str "completed" ∧
    jget (check_status_route "t" pollBody 200 "" true dbOne).body "audio_url" =
      .str "" := by
  decide

/-- C9 counterexample: for `POST /create_song` with body
`{"style":"instrumental","genre":"lofi"}` the outgoing provider payload does
not omit `style`: the route rewrites `style` to the genre before the
orchestrator builds the payload, so the payload carries `style = "lofi"`
alongside `instrumental = true`. -/
theorem create_song_instrumental_payload_has_style :
    (create_song_payload instruBody "la" "sfx" "http://localhost:5000").map
        (fun p => p.lookup "style") = some (some (.str "lofi")) ∧
    (create_song_payload instruBody "la" "sfx" "http://localhost:5000").map
        (fun p => p.lookup "instrumental") = some (some (.bool true)) ∧
    (create_song_payload instruBody "la" "sfx" "http://localhost:5000").map
        (fun p => p.lookup "style") ≠ some none := by
  decide

theorem sunoPayload_lookup_style (l s t m th c : String) (cm i : Bool) :
    (sunoPayload l s t m th c cm i).lookup "style" =
      if s != "" && pyLower (pyStrip s) != "instrumental" then some (.str s)
      else none := by
  unfold sunoPayload
  split
  · simp [List.lookup]
  · simp [List.lookup]

/-- C9 corrected: the instrumental request body forces instrumental mode
with `style` falling back to the genre, so the outgoing payload sets
`instrumental=true` and carries `style="lofi"`; the payload omits the
`style` field exactly when the style handed to `generate_music` is empty or
its stripped, lowercased value is `"instrumental"`. -/
theorem create_song_instrumental_mode (lyrics suffix appBase : String) :
    (create_song_payload instruBody lyrics suffix appBase).map
        (fun p => p.lookup "style") = some (some (.str "lofi")) ∧
    (create_song_payload instruBody lyrics suffix appBase).map
        (fun p => p.lookup "instrumental") = some (some (.bool true)) ∧
    ∀ ps : GenParams, ((generate_music_payload ps).lookup "style" = none ↔
      (ps.style = "" ∨ pyLower (pyStrip ps.style) = "instrumental")) := by
  refine ⟨rfl, rfl, ?_⟩
  intro ps
  rw [generate_music_payload, sunoPayload_lookup_style]
  by_cases h1 : ps.style = ""
  · simp [h1]
  · by_cases h2 : pyLower (pyStrip ps.style) = "instrumental"
    · simp [h1, h2]
    · simp [h1, h2]

theorem create_song_instrumental_mode_witness :
    (generate_music_payload
        ⟨"la", "instrumental", "t", "", "", "", "http://x", true, true⟩).lookup "style" =
      none :=
  ((create_song_instrumental_mode "la" "sfx" "http://x").2.2
    ⟨"la", "instrumental", "t", "", "", "", "http://x", true, true⟩).mpr
    (Or.inr (by decide))

/-- C10: on every reachable store the `failed` status and `error_message`
are never written: every row's status lies in
`{pending, processing, completed}` (indeed in `{processing, completed}`),
is never `failed`, and `error_message` stays `NULL`. -/
theorem failed_status_unreachable (db : List Song) (hdb : Reachable db) :
    ∀ s ∈ db, (s.status = .pending ∨ s.status = .processing ∨ s.status = .completed) ∧
      s.status ≠ .failed ∧ s.error_message = none := by
  intro s hs
  have h := (reachable_inv hdb).2 s hs
  rcases h.1 with hp | hc
  · exact ⟨Or.inr (Or.inl hp), by simp [hp], h.2.1⟩
  · exact ⟨Or.inr (Or.inr hc), by simp [hc], h.2.1⟩

theorem failed_status_unreachable_witness :
    (songOne.status = .pending ∨ songOne.status = .processing ∨
      songOne.status = .completed) ∧
    songOne.status ≠ .failed ∧ songOne.error_message = none :=
  failed_status_unreachable dbOne reachable_dbOne songOne (by decide)
